import Mathlib

/-!
Verification of the generation-gateway layer of the PSRSOCIAL-OS repository.

The definitions below are a shallow embedding of the TypeScript source:
`src/services/geminiService.ts` (and its variant in `src/unnamed/part_007`),
the feature components (`src/unnamed/part_004`, `src/unnamed/part_005`,
`src/components/VideoGenerator.tsx`) and the task list of the `App`
component (`src/unnamed/part_007`).  Strings that undergo character-level
processing (trimming, fence stripping, JSON parsing) are modelled as
`List Char`; backend responses, which the program receives over the network,
appear as explicit inputs of the embedded functions.
-/

namespace PSRSocial

/-- Whitespace test used to model JavaScript `String.prototype.trim`. -/
def isWs (c : Char) : Bool := c.isWhitespace

/-- Model of JavaScript `String.prototype.trim` on a list of characters:
drop whitespace from both ends. -/
def trimChars (l : List Char) : List Char :=
  ((l.dropWhile isWs).reverse.dropWhile isWs).reverse

/-- The `web` field of a grounding chunk (`GroundingChunk.web` in the SDK):
title and uri are both optional. -/
structure WebChunkInfo where
  title : Option String
  uri : Option String
deriving DecidableEq

/-- The `maps` field of a grounding chunk: title, uri and placeId optional. -/
structure MapsChunkInfo where
  title : Option String
  uri : Option String
  placeId : Option String
deriving DecidableEq

/-- A grounding chunk as received from the backend: it may carry a web part,
a maps part, both, or neither. -/
structure GroundingChunk where
  web : Option WebChunkInfo
  maps : Option MapsChunkInfo
deriving DecidableEq

/-- `GroundingSource` from `src/unnamed/part_008`: a normalized web citation. -/
structure GroundingSource where
  title : String
  uri : String
deriving DecidableEq

/-- `MapGroundingSource` from `src/unnamed/part_008`: a normalized map
citation with an optional place identifier. -/
structure MapGroundingSource where
  title : String
  uri : String
  placeId : Option String
deriving DecidableEq

/-- `GroundingMetadata` from `src/unnamed/part_008`. -/
structure GroundingMetadata where
  web : List GroundingSource
  maps : List MapGroundingSource
deriving DecidableEq

/-- Normalization of a web chunk, from `src/services/geminiService.ts:227`:
`{ title: chunk.web.title ?? 'Untitled', uri: chunk.web.uri ?? '' }`. -/
def normWeb (w : WebChunkInfo) : GroundingSource :=
  { title := w.title.getD "Untitled", uri := w.uri.getD "" }

/-- Normalization of a maps chunk, from `src/services/geminiService.ts:230`:
`{ title: chunk.maps.title ?? 'Untitled', uri: chunk.maps.uri ?? '',
placeId: chunk.maps.placeId }`. -/
def normMaps (mp : MapsChunkInfo) : MapGroundingSource :=
  { title := mp.title.getD "Untitled", uri := mp.uri.getD "", placeId := mp.placeId }

/-- One iteration of the `chunks.forEach` loop in `parseGroundingChunks`:
push the normalized web part, then the normalized maps part, onto the
accumulated metadata. -/
def pushChunk (m : GroundingMetadata) (chunk : GroundingChunk) : GroundingMetadata :=
  let m1 :=
    match chunk.web with
    | some w => { m with web := m.web ++ [normWeb w] }
    | none => m
  match chunk.maps with
  | some mp => { m1 with maps := m1.maps ++ [normMaps mp] }
  | none => m1

/-- `parseGroundingChunks` from `src/services/geminiService.ts:220` (identical
in `src/unnamed/part_007:337`): `null` when the chunk list is absent or empty,
otherwise the metadata accumulated over the chunks in order. -/
def parseGroundingChunks (chunks : Option (List GroundingChunk)) :
    Option GroundingMetadata :=
  match chunks with
  | none => none
  | some cs =>
    if cs.length = 0 then none
    else some (cs.foldl pushChunk { web := [], maps := [] })

theorem foldl_pushChunk (cs : List GroundingChunk) (acc : GroundingMetadata) :
    cs.foldl pushChunk acc =
      { web := acc.web ++ cs.filterMap (fun c => c.web.map normWeb),
        maps := acc.maps ++ cs.filterMap (fun c => c.maps.map normMaps) } := by
  induction cs generalizing acc with
  | nil => simp
  | cons c cs ih =>
    simp only [List.foldl_cons, List.filterMap_cons, ih]
    cases hw : c.web <;> cases hm : c.maps <;>
      simp [pushChunk, hw, hm, GroundingMetadata.mk.injEq, List.append_assoc]

theorem parseGroundingChunks_some (cs : List GroundingChunk) (h : cs ≠ []) :
    parseGroundingChunks (some cs) =
      some { web := cs.filterMap (fun c => c.web.map normWeb),
             maps := cs.filterMap (fun c => c.maps.map normMaps) } := by
  have hlen : ¬ cs.length = 0 := by
    simpa [List.length_eq_zero] using h
  simp [parseGroundingChunks, hlen, foldl_pushChunk]

/-- C2 (counterexample): the claim says a maps chunk lacking a title gets the
default title "Untitled Place"; on the code, `parseGroundingChunks` gives it
the title "Untitled" (the literal "Untitled Place" appears only in the
rendering component `GroundingSources`, as a display fallback that the
normalizer's default prevents from ever firing). -/
theorem c2_counterexample :
    parseGroundingChunks
        (some [{ web := none,
                 maps := some { title := none, uri := some "u", placeId := none } }]) =
      some { web := [],
             maps := [{ title := "Untitled", uri := "u", placeId := none }] } ∧
    ("Untitled" : String) ≠ "Untitled Place" :=
  ⟨rfl, by decide⟩

/-- C2 (amended): every web or maps entry of the normalized metadata comes
from a chunk of the input; a chunk lacking a title yields the default title
"Untitled" — for web chunks and for maps chunks alike — and a chunk lacking
a URI yields the empty string as its uri. -/
theorem c2_missing_title_defaults (cs : List GroundingChunk) (md : GroundingMetadata)
    (h : parseGroundingChunks (some cs) = some md) :
    (∀ s ∈ md.web, ∃ c ∈ cs, ∃ w, c.web = some w ∧ s = normWeb w ∧
        (w.title = none → s.title = "Untitled") ∧ (w.uri = none → s.uri = "")) ∧
    (∀ s ∈ md.maps, ∃ c ∈ cs, ∃ mp, c.maps = some mp ∧ s = normMaps mp ∧
        (mp.title = none → s.title = "Untitled") ∧ (mp.uri = none → s.uri = "")) := by
  rcases eq_or_ne cs [] with hnil | hne
  · subst hnil
    simp [parseGroundingChunks] at h
  · rw [parseGroundingChunks_some cs hne] at h
    have hmd := (Option.some.injEq _ _).mp h
    constructor
    · intro s hs
      rw [← hmd] at hs
      simp only [List.mem_filterMap] at hs
      obtain ⟨c, hc, hmap⟩ := hs
      obtain ⟨w, hw, hnw⟩ := Option.map_eq_some'.mp hmap
      refine ⟨c, hc, w, hw, hnw.symm, ?_, ?_⟩
      · intro ht
        simp [← hnw, normWeb, ht]
      · intro hu
        simp [← hnw, normWeb, hu]
    · intro s hs
      rw [← hmd] at hs
      simp only [List.mem_filterMap] at hs
      obtain ⟨c, hc, hmap⟩ := hs
      obtain ⟨mp, hmp, hnm⟩ := Option.map_eq_some'.mp hmap
      refine ⟨c, hc, mp, hmp, hnm.symm, ?_, ?_⟩
      · intro ht
        simp [← hnm, normMaps, ht]
      · intro hu
        simp [← hnm, normMaps, hu]

/-- C2 (witness): the amended theorem applied to a concrete chunk list holding
one title-less web chunk and one title-less, uri-less maps chunk. -/
theorem c2_missing_title_defaults_witness :
    (∀ s ∈ (GroundingMetadata.mk [{ title := "Untitled", uri := "w" }]
        [{ title := "Untitled", uri := "", placeId := some "p" }]).web,
      ∃ c ∈ [GroundingChunk.mk (some { title := none, uri := some "w" }) none,
             GroundingChunk.mk none (some { title := none, uri := none, placeId := some "p" })],
        ∃ w, c.web = some w ∧ s = normWeb w ∧
          (w.title = none → s.title = "Untitled") ∧ (w.uri = none → s.uri = "")) ∧
    (∀ s ∈ (GroundingMetadata.mk [{ title := "Untitled", uri := "w" }]
        [{ title := "Untitled", uri := "", placeId := some "p" }]).maps,
      ∃ c ∈ [GroundingChunk.mk (some { title := none, uri := some "w" }) none,
             GroundingChunk.mk none (some { title := none, uri := none, placeId := some "p" })],
        ∃ mp, c.maps = some mp ∧ s = normMaps mp ∧
          (mp.title = none → s.title = "Untitled") ∧ (mp.uri = none → s.uri = "")) :=
  c2_missing_title_defaults
    [GroundingChunk.mk (some { title := none, uri := some "w" }) none,
     GroundingChunk.mk none (some { title := none, uri := none, placeId := some "p" })]
    (GroundingMetadata.mk [{ title := "Untitled", uri := "w" }]
      [{ title := "Untitled", uri := "", placeId := some "p" }]) rfl

/-- C8: for a nonempty chunk list whose chunks are all web chunks (each has a
web part and no maps part), `parseGroundingChunks` returns metadata whose maps
sequence is empty and whose web sequence is the input's web parts, normalized,
in input order. -/
theorem c8_web_only (cs : List GroundingChunk) (h : cs ≠ [])
    (hweb : ∀ c ∈ cs, c.maps = none ∧ c.web.isSome = true) :
    parseGroundingChunks (some cs) =
      some { web := cs.filterMap (fun c => c.web.map normWeb), maps := [] } := by
  rw [parseGroundingChunks_some cs h]
  have hmaps : cs.filterMap (fun c => c.maps.map normMaps) = [] := by
    rw [List.filterMap_eq_nil_iff]
    intro c hc
    rw [(hweb c hc).1]
    rfl
  rw [hmaps]

/-- C8 (witness): the theorem applied to a concrete two-element list of web
chunks; the web sources come out in input order, the maps list is empty. -/
theorem c8_web_only_witness :
    ([GroundingChunk.mk (some { title := some "A", uri := some "a" }) none,
      GroundingChunk.mk (some { title := none, uri := some "b" }) none] ≠
        ([] : List GroundingChunk)) ∧
    parseGroundingChunks
        (some [GroundingChunk.mk (some { title := some "A", uri := some "a" }) none,
               GroundingChunk.mk (some { title := none, uri := some "b" }) none]) =
      some { web := [{ title := "A", uri := "a" }, { title := "Untitled", uri := "b" }],
             maps := [] } := by
  refine ⟨by decide, ?_⟩
  have h := c8_web_only
    [GroundingChunk.mk (some { title := some "A", uri := some "a" }) none,
     GroundingChunk.mk (some { title := none, uri := some "b" }) none]
    (by decide) (by decide)
  simpa [normWeb] using h

/-! JSON values and a model of `JSON.parse`.  The source hands the backend's
response text to the JavaScript builtin `JSON.parse`; the fuel-indexed
recursive-descent parser below models it over `List Char`.  Numbers are kept
exactly as mantissa and power of ten; none of the verified properties inspects
numeric values. -/

/-- A parsed JSON value. -/
inductive Json where
  | null
  | bool (b : Bool)
  | num (mant : Int) (exp10 : Int)
  | str (s : List Char)
  | arr (elems : List Json)
  | obj (fields : List (List Char × Json))

/-- The four whitespace characters `JSON.parse` skips between tokens. -/
def isJsonWs (c : Char) : Bool := c = ' ' || c = '\t' || c = '\n' || c = '\r'

/-- Skip JSON whitespace. -/
def skipWs (l : List Char) : List Char := l.dropWhile isJsonWs

/-- Decimal digit test. -/
def isDigit (c : Char) : Bool := '0' ≤ c && c ≤ '9'

/-- Value of a run of decimal digits. -/
def digitsToNat (l : List Char) : Nat := l.foldl (fun a c => a * 10 + (c.toNat - 48)) 0

/-- Value of a hexadecimal digit, for `\u` escapes. -/
def hexVal (c : Char) : Option Nat :=
  if '0' ≤ c ∧ c ≤ '9' then some (c.toNat - 48)
  else if 'a' ≤ c ∧ c ≤ 'f' then some (c.toNat - 87)
  else if 'A' ≤ c ∧ c ≤ 'F' then some (c.toNat - 55)
  else none

/-- Decoding of a single-character JSON string escape. -/
def escChar (e : Char) : Option Char :=
  if e = '"' then some '"'
  else if e = '\\' then some '\\'
  else if e = '/' then some '/'
  else if e = 'b' then some (Char.ofNat 8)
  else if e = 'f' then some (Char.ofNat 12)
  else if e = 'n' then some '\n'
  else if e = 'r' then some '\r'
  else if e = 't' then some '\t'
  else none

/-- Body of a JSON string after the opening quote: the decoded characters and
the rest of the input past the closing quote. -/
def parseStringBody : Nat → List Char → Option (List Char × List Char)
  | 0, _ => none
  | Nat.succ fuel, l =>
    match l with
    | [] => none
    | c :: rest =>
      if c = '"' then some ([], rest)
      else if c = '\\' then
        match rest with
        | 'u' :: h1 :: h2 :: h3 :: h4 :: rest2 =>
          match hexVal h1, hexVal h2, hexVal h3, hexVal h4 with
          | some a, some b, some c2, some d =>
            (parseStringBody fuel rest2).map fun p =>
              (Char.ofNat (((a * 16 + b) * 16 + c2) * 16 + d) :: p.1, p.2)
          | _, _, _, _ => none
        | e :: rest2 =>
          match escChar e with
          | some d => (parseStringBody fuel rest2).map fun p => (d :: p.1, p.2)
          | none => none
        | [] => none
      else (parseStringBody fuel rest).map fun p => (c :: p.1, p.2)

/-- Fractional part of a JSON number: the digits after a dot, if present. -/
def parseFrac (l : List Char) : Option (List Char × List Char) :=
  match l with
  | '.' :: r =>
    let ds := r.takeWhile isDigit
    if ds.isEmpty then none else some (ds, r.drop ds.length)
  | _ => some ([], l)

/-- Exponent part of a JSON number, as a signed power of ten. -/
def parseExp (l : List Char) : Option (Int × List Char) :=
  match l with
  | c :: r =>
    if c = 'e' ∨ c = 'E' then
      let (sgn, r2) : Int × List Char :=
        match r with
        | '+' :: r2 => (1, r2)
        | '-' :: r2 => (-1, r2)
        | _ => (1, r)
      let ds := r2.takeWhile isDigit
      if ds.isEmpty then none
      else some (sgn * (digitsToNat ds : Int), r2.drop ds.length)
    else some (0, l)
  | [] => some (0, [])

/-- A JSON number: optional minus, integer digits without a leading zero,
optional fraction and exponent. -/
def parseNumber (l : List Char) : Option (Json × List Char) :=
  let (neg, l1) : Bool × List Char :=
    match l with
    | '-' :: r => (true, r)
    | _ => (false, l)
  let intDigits := l1.takeWhile isDigit
  if intDigits.isEmpty then none
  else if 1 < intDigits.length ∧ intDigits.head? = some '0' then none
  else
    match parseFrac (l1.drop intDigits.length) with
    | none => none
    | some (fracDigits, l3) =>
      match parseExp l3 with
      | none => none
      | some (e, l4) =>
        let mantNat := digitsToNat (intDigits ++ fracDigits)
        let mant : Int := if neg then -(mantNat : Int) else (mantNat : Int)
        some (Json.num mant (e - fracDigits.length), l4)

mutual

/-- A JSON value: null, booleans, strings, numbers, arrays and objects. -/
def parseV : Nat → List Char → Option (Json × List Char)
  | 0, _ => none
  | Nat.succ fuel, l =>
    match skipWs l with
    | 'n' :: 'u' :: 'l' :: 'l' :: r => some (Json.null, r)
    | 't' :: 'r' :: 'u' :: 'e' :: r => some (Json.bool true, r)
    | 'f' :: 'a' :: 'l' :: 's' :: 'e' :: r => some (Json.bool false, r)
    | '"' :: r => (parseStringBody fuel r).map fun p => (Json.str p.1, p.2)
    | '[' :: r =>
      match skipWs r with
      | ']' :: r2 => some (Json.arr [], r2)
      | r2 => (parseElems fuel r2).map fun p => (Json.arr p.1, p.2)
    | '\x7b' :: r =>
      match skipWs r with
      | '\x7d' :: r2 => some (Json.obj [], r2)
      | r2 => (parseMembers fuel r2).map fun p => (Json.obj p.1, p.2)
    | l2 => parseNumber l2

/-- The comma-separated elements of a nonempty JSON array, up to `]`. -/
def parseElems : Nat → List Char → Option (List Json × List Char)
  | 0, _ => none
  | Nat.succ fuel, l =>
    match parseV fuel l with
    | none => none
    | some (v, r) =>
      match skipWs r with
      | ',' :: r2 => (parseElems fuel r2).map fun p => (v :: p.1, p.2)
      | ']' :: r2 => some ([v], r2)
      | _ => none

/-- The comma-separated members of a nonempty JSON object, up to the closing
brace. -/
def parseMembers : Nat → List Char → Option (List (List Char × Json) × List Char)
  | 0, _ => none
  | Nat.succ fuel, l =>
    match skipWs l with
    | '"' :: r =>
      match parseStringBody fuel r with
      | none => none
      | some (key, r2) =>
        match skipWs r2 with
        | ':' :: r3 =>
          match parseV fuel r3 with
          | none => none
          | some (v, r4) =>
            match skipWs r4 with
            | ',' :: r5 => (parseMembers fuel r5).map fun p => ((key, v) :: p.1, p.2)
            | '\x7d' :: r5 => some ([(key, v)], r5)
            | _ => none
        | _ => none
    | _ => none

end

/-- Model of the JavaScript builtin `JSON.parse`: parse one value and require
only whitespace after it.  The fuel is generous for every input length; the
source's inputs are finite response texts. -/
def jsonParse (l : List Char) : Option Json :=
  match parseV (8 * l.length + 16) l with
  | none => none
  | some (v, rest) => if skipWs rest = [] then some v else none

/-- The markdown-fence stripping performed before `JSON.parse` in
`generateMarketingPlan` (`src/services/geminiService.ts:99`) and
`generateMarketAnalysis` (`src/unnamed/part_007:122`): trim, drop a leading
three-backtick json marker, then a trailing three-backtick marker, trimming
after each step. -/
def extractJson (responseText : List Char) : List Char :=
  let t := trimChars responseText
  if ("```json".data).isPrefixOf t then
    let t2 := trimChars (t.drop 7)
    if ("```".data).isSuffixOf t2 then
      trimChars (t2.take (t2.length - 3))
    else t2
  else t

/-- JavaScript property lookup on a parsed JSON value: a field of an object,
`undefined` (here `none`) otherwise. -/
def getField (j : Json) (k : List Char) : Option Json :=
  match j with
  | .obj fields => (fields.find? (fun f => f.1 == k)).map (fun f => f.2)
  | _ => none

/-- The classified failures of the gateway (spec taxonomy §7). -/
inductive GatewayError where
  | responseFormatError (message : String)
  | noContentGenerated
  | runtimeTypeError

/-- What `generateMarketingPlan` resolves with: the parsed plan — returned as
parsed, the cast `as MarketingPlanResponse` checks nothing — and the
normalized grounding metadata. -/
structure MarketingPlanCall where
  plan : Json
  groundingMetadata : Option GroundingMetadata

/-- `generateMarketingPlan` from `src/services/geminiService.ts:58`, from the
point the backend response is in hand: strip fences, `JSON.parse`; a parse
failure becomes the fixed format error; on success the parsed value is
returned unvalidated together with the normalized grounding chunks. -/
def generateMarketingPlan (responseText : List Char)
    (chunks : Option (List GroundingChunk)) : Except GatewayError MarketingPlanCall :=
  match jsonParse (extractJson responseText) with
  | none => .error (.responseFormatError
      "Could not generate a valid marketing plan. The response from the AI was not in the expected JSON format.")
  | some plan => .ok { plan := plan, groundingMetadata := parseGroundingChunks chunks }

/-- `generateMarketAnalysis` from `src/unnamed/part_007:78`, same response
handling as `generateMarketingPlan` with its own failure message. -/
def generateMarketAnalysis (responseText : List Char)
    (chunks : Option (List GroundingChunk)) : Except GatewayError MarketingPlanCall :=
  match jsonParse (extractJson responseText) with
  | none => .error (.responseFormatError
      "Could not generate a valid analysis. The response from the AI was not in the expected JSON format.")
  | some plan => .ok { plan := plan, groundingMetadata := parseGroundingChunks chunks }

/-- `getPostingRecommendations` from `src/unnamed/part_007:184`: trim and
`JSON.parse` the response (no fence stripping here), then read the
`recommendations` property of the parsed value.  Property access on a parsed
`null` throws inside the `try`, so it too becomes the format error; on any
other parsed value the property is returned as found — possibly absent. -/
def getPostingRecommendations (responseText : List Char) :
    Except GatewayError (Option Json) :=
  match jsonParse (trimChars responseText) with
  | none => .error (.responseFormatError
      "Could not generate valid recommendations. The response from the AI was not in the expected JSON format.")
  | some j =>
    match j with
    | .null => .error (.responseFormatError
        "Could not generate valid recommendations. The response from the AI was not in the expected JSON format.")
    | _ => .ok (getField j ("recommendations".data))

/-- `generateImage` from `src/services/geminiService.ts:116`, from the point
the backend response is in hand.  The element of `generatedImages` is modelled
by its `image.imageBytes` chain flattened to an optional string; an empty
`generatedImages` makes the source's `[0].image` access throw a TypeError. -/
def generateImage (generatedImages : List (Option String)) :
    Except GatewayError String :=
  match generatedImages with
  | [] => .error .runtimeTypeError
  | first :: _ =>
    match first with
    | none => .error .noContentGenerated
    | some bytes => if bytes = "" then .error .noContentGenerated else .ok bytes

/-- A content part of the edit-image response: optional inline binary data
(its `data` string) and optional text. -/
structure ContentPart where
  inlineData : Option String
  text : Option String

/-- `editImage` from `src/services/geminiService.ts:135`: return the first
part carrying inline data; throw `No image was generated.` otherwise. -/
def editImage (parts : List ContentPart) : Except GatewayError String :=
  match parts.findSome? (fun p => p.inlineData) with
  | some data => .ok data
  | none => .error .noContentGenerated

/-- `getLocalInsights` from `src/services/geminiService.ts:195`, from the
point the backend response is in hand: the response text together with the
normalized grounding metadata, with no failure path of its own. -/
def getLocalInsights (responseText : String)
    (chunks : Option (List GroundingChunk)) : String × Option GroundingMetadata :=
  (responseText, parseGroundingChunks chunks)

/-- The keys the domain type `MarketingPlanResponse`
(`src/unnamed/part_008:11`) requires of a marketing plan. -/
def marketingPlanRequiredKeys : List (List Char) :=
  ["competitorAnalysis".data, "contentPillars".data, "postIdeas".data]

/-- A parsed plan is fully populated when every required key is present. -/
def fullyPopulatedMarketingPlan (j : Json) : Bool :=
  marketingPlanRequiredKeys.all fun k => (getField j k).isSome

theorem findSome?_eq_some_exists {α β : Type} (f : α → Option β) :
    ∀ (l : List α) (b : β), l.findSome? f = some b → ∃ a ∈ l, f a = some b := by
  intro l
  induction l with
  | nil => intro b h; simp [List.findSome?] at h
  | cons a as ih =>
    intro b h
    rw [List.findSome?_cons] at h
    cases hfa : f a with
    | some c =>
      rw [hfa] at h
      exact ⟨a, List.mem_cons_self a as, hfa.trans h⟩
    | none =>
      rw [hfa] at h
      obtain ⟨x, hx, hfx⟩ := ih b h
      exact ⟨x, List.mem_cons_of_mem a hx, hfx⟩

/-- C1 (counterexample): the backend answering the marketing-plan request with
the syntactically valid JSON text `{}` makes `generateMarketingPlan` succeed
and hand the caller a plan object carrying none of the fields the domain type
`MarketingPlanResponse` requires — a partially populated result is returned
without the call failing. -/
theorem c1_counterexample :
    generateMarketingPlan ("\x7b\x7d".data) none =
      .ok { plan := Json.obj [], groundingMetadata := none } ∧
    fullyPopulatedMarketingPlan (Json.obj []) = false :=
  ⟨rfl, rfl⟩

/-- C1 (amended): the media-returning calls are fully populated or fail — a
successful `generateImage` returns nonempty image bytes and a successful
`editImage` returns inline data found in a response part — but the
JSON-parsing calls validate syntax only: `generateMarketingPlan` (and
`generateMarketAnalysis`) succeeds exactly when the fence-stripped response
text parses as JSON, and then returns the parsed value unvalidated, so a
well-formed JSON response missing required fields is passed to the caller;
`getPostingRecommendations` likewise returns the `recommendations` property
as found, possibly absent. -/
theorem c1_populated_or_fail :
    (∀ t chunks, (∃ r, generateMarketingPlan t chunks = .ok r) ↔
        (jsonParse (extractJson t)).isSome = true) ∧
    (∀ t chunks j, jsonParse (extractJson t) = some j →
        generateMarketingPlan t chunks =
          .ok { plan := j, groundingMetadata := parseGroundingChunks chunks }) ∧
    (∀ t chunks j, jsonParse (extractJson t) = some j →
        generateMarketAnalysis t chunks =
          .ok { plan := j, groundingMetadata := parseGroundingChunks chunks }) ∧
    (∀ t j, jsonParse (trimChars t) = some j → j ≠ Json.null →
        getPostingRecommendations t = .ok (getField j ("recommendations".data))) ∧
    (∀ imgs b, generateImage imgs = .ok b → b ≠ "") ∧
    (∀ parts d, editImage parts = .ok d → ∃ p ∈ parts, p.inlineData = some d) := by
  refine ⟨?_, ?_, ?_, ?_, ?_, ?_⟩
  · intro t chunks
    constructor
    · rintro ⟨r, hr⟩
      unfold generateMarketingPlan at hr
      cases hp : jsonParse (extractJson t) with
      | none => rw [hp] at hr; exact absurd hr (by simp)
      | some j => simp [hp]
    · intro hs
      rw [Option.isSome_iff_exists] at hs
      obtain ⟨j, hj⟩ := hs
      exact ⟨_, by unfold generateMarketingPlan; rw [hj]⟩
  · intro t chunks j h
    unfold generateMarketingPlan
    rw [h]
  · intro t chunks j h
    unfold generateMarketAnalysis
    rw [h]
  · intro t j h hnull
    unfold getPostingRecommendations
    rw [h]
    cases j with
    | null => exact absurd rfl hnull
    | bool b => rfl
    | num m e => rfl
    | str s => rfl
    | arr xs => rfl
    | obj fs => rfl
  · intro imgs b h
    cases imgs with
    | nil => simp [generateImage] at h
    | cons first rest =>
      cases first with
      | none => simp [generateImage] at h
      | some bytes =>
        simp only [generateImage] at h
        by_cases hb : bytes = ""
        · rw [if_pos hb] at h
          simp at h
        · rw [if_neg hb] at h
          cases h
          exact hb
  · intro parts d h
    unfold editImage at h
    cases hf : parts.findSome? (fun p => p.inlineData) with
    | none => rw [hf] at h; exact absurd h (by simp)
    | some d2 =>
      rw [hf] at h
      cases h
      exact findSome?_eq_some_exists _ parts d hf

/-- C1 (witness): the amended theorem applied at concrete inputs — the
response text `{"a":1}` for the JSON calls, a one-element image list and a
two-part edit response for the media calls. -/
theorem c1_populated_or_fail_witness :
    (∃ r, generateMarketingPlan ("\x7b\"a\":1\x7d".data) none = .ok r) ∧
    generateMarketingPlan ("\x7b\"a\":1\x7d".data) none =
      .ok { plan := Json.obj [("a".data, Json.num 1 0)], groundingMetadata := none } ∧
    generateMarketAnalysis ("\x7b\"a\":1\x7d".data) none =
      .ok { plan := Json.obj [("a".data, Json.num 1 0)], groundingMetadata := none } ∧
    getPostingRecommendations ("\x7b\"a\":1\x7d".data) = .ok none ∧
    ("img" : String) ≠ "" ∧
    (∃ p ∈ [ContentPart.mk none (some "t"), ContentPart.mk (some "d") none],
        p.inlineData = some "d") := by
  refine ⟨?_, ?_, ?_, ?_, ?_, ?_⟩
  · exact (c1_populated_or_fail.1 ("\x7b\"a\":1\x7d".data) none).mpr rfl
  · exact c1_populated_or_fail.2.1 ("\x7b\"a\":1\x7d".data) none
      (Json.obj [("a".data, Json.num 1 0)]) rfl
  · exact c1_populated_or_fail.2.2.1 ("\x7b\"a\":1\x7d".data) none
      (Json.obj [("a".data, Json.num 1 0)]) rfl
  · exact c1_populated_or_fail.2.2.2.1 ("\x7b\"a\":1\x7d".data)
      (Json.obj [("a".data, Json.num 1 0)]) rfl (by intro h; cases h)
  · exact c1_populated_or_fail.2.2.2.2.1 [some "img"] "img" rfl
  · exact c1_populated_or_fail.2.2.2.2.2
      [ContentPart.mk none (some "t"), ContentPart.mk (some "d") none] "d" rfl

/-- Wrapping a response text in a markdown json fence, the input construction
of the fence-stripping property. -/
def wrapJsonFence (t : List Char) : List Char :=
  "```json\n".data ++ t ++ "\n```".data

theorem dropWhile_head_false (p : Char → Bool) :
    ∀ (l : List Char) (a : Char) (as : List Char),
      l.dropWhile p = a :: as → p a = false := by
  intro l
  induction l with
  | nil => intro a as h; simp at h
  | cons c cs ih =>
    intro a as h
    rw [List.dropWhile_cons] at h
    by_cases hc : p c = true
    · rw [if_pos hc] at h
      exact ih a as h
    · rw [if_neg hc] at h
      cases h
      simpa using hc

theorem dropWhile_append_distrib (p : Char → Bool) :
    ∀ (l₁ l₂ : List Char), (l₁ ++ l₂).dropWhile p =
      if (l₁.dropWhile p).isEmpty then l₂.dropWhile p else l₁.dropWhile p ++ l₂ := by
  intro l₁
  induction l₁ with
  | nil => intro l₂; simp
  | cons a l ih =>
    intro l₂
    by_cases ha : p a = true
    · simp [List.dropWhile_cons, ha, ih]
    · simp [List.dropWhile_cons, ha]

theorem isPrefixOf_append_self (l₁ l₂ : List Char) :
    l₁.isPrefixOf (l₁ ++ l₂) = true := by
  rw [List.isPrefixOf_iff_prefix]
  exact List.prefix_append l₁ l₂

theorem isSuffixOf_append_self (l₁ l₂ : List Char) :
    l₂.isSuffixOf (l₁ ++ l₂) = true := by
  rw [List.isSuffixOf_iff_suffix]
  exact List.suffix_append l₁ l₂

theorem trimChars_cons_ws (c : Char) (x : List Char) (hc : isWs c = true) :
    trimChars (c :: x) = trimChars x := by
  simp [trimChars, List.dropWhile_cons, hc]

theorem dropWhile_idem (p : Char → Bool) (l : List Char) :
    (l.dropWhile p).dropWhile p = l.dropWhile p := by
  cases hd : l.dropWhile p with
  | nil => rfl
  | cons a as =>
    have ha := dropWhile_head_false p l a as hd
    rw [List.dropWhile_cons, ha, if_neg Bool.false_ne_true]

theorem trimChars_wrap (t : List Char) :
    trimChars (wrapJsonFence t) = wrapJsonFence t := by
  have hfo : ("```json\n".data).dropWhile isWs = "```json\n".data := rfl
  have hfoE : (("```json\n".data).dropWhile isWs).isEmpty = false := rfl
  have hfe : (("\n```".data).reverse).dropWhile isWs = ("\n```".data).reverse := rfl
  have hfeE : ((("\n```".data).reverse).dropWhile isWs).isEmpty = false := rfl
  have h1 : (wrapJsonFence t).dropWhile isWs = wrapJsonFence t := by
    rw [wrapJsonFence, List.append_assoc, dropWhile_append_distrib, hfoE, hfo]
    simp [List.append_assoc]
  have h2 : ((wrapJsonFence t).reverse).dropWhile isWs = (wrapJsonFence t).reverse := by
    have hrev : (wrapJsonFence t).reverse =
        ("\n```".data).reverse ++ (t.reverse ++ ("```json\n".data).reverse) := by
      rw [wrapJsonFence]
      simp [List.reverse_append, List.append_assoc]
    rw [hrev, dropWhile_append_distrib, hfeE, if_neg Bool.false_ne_true, hfe]
  rw [trimChars, h1, h2, List.reverse_reverse]

theorem extractJson_wrap (t : List Char) :
    extractJson (wrapJsonFence t) = trimChars t := by
  have hsplit : ("```json\n".data : List Char) = "```json".data ++ ['\n'] := rfl
  have hw : wrapJsonFence t = "```json".data ++ ('\n' :: (t ++ "\n```".data)) := by
    rw [wrapJsonFence, hsplit]
    simp [List.append_assoc]
  have hpre : ("```json".data).isPrefixOf (wrapJsonFence t) = true := by
    rw [hw]
    exact isPrefixOf_append_self _ _
  have hdrop : (wrapJsonFence t).drop 7 = '\n' :: (t ++ "\n```".data) := by
    rw [hw, show (7 : Nat) = ("```json".data).length from rfl, List.drop_left]
  have hsplitFe : ("\n```".data : List Char) = '\n' :: "```".data := rfl
  rw [extractJson, trimChars_wrap t, hpre, if_pos rfl, hdrop,
    trimChars_cons_ws '\n' (t ++ "\n```".data) rfl]
  by_cases hE : ((t.dropWhile isWs).isEmpty) = true
  · -- the wrapped text is all whitespace: both sides reduce to the empty list
    have htnil : t.dropWhile isWs = [] := by simpa using hE
    have ht2 : trimChars (t ++ "\n```".data) = "```".data := by
      rw [trimChars, dropWhile_append_distrib, hE, if_pos rfl]
      rfl
    have hright : trimChars t = [] := by
      rw [trimChars, htnil]
      rfl
    rw [ht2, hright]
    rfl
  · -- the wrapped text has a non-whitespace character
    have hEfalse : ((t.dropWhile isWs).isEmpty) = false := by
      cases hv : (t.dropWhile isWs).isEmpty
      · rfl
      · exact absurd hv hE
    have hcons : ∃ c cs, t.dropWhile isWs = c :: cs := by
      cases hd : t.dropWhile isWs with
      | nil => rw [hd] at hEfalse; simp at hEfalse
      | cons c cs => exact ⟨c, cs, rfl⟩
    obtain ⟨c, cs, hd⟩ := hcons
    have hcfalse : isWs c = false := dropWhile_head_false isWs t c cs hd
    have hrevfe : (("```".data).reverse).dropWhile isWs = ("```".data).reverse := rfl
    have hrevfeE : ((("```".data).reverse).dropWhile isWs).isEmpty = false := rfl
    have ht2 : trimChars (t ++ "\n```".data) =
        (t.dropWhile isWs ++ ['\n']) ++ "```".data := by
      rw [trimChars, dropWhile_append_distrib, hEfalse, if_neg Bool.false_ne_true]
      have hre : (t.dropWhile isWs ++ "\n```".data).reverse =
          ("```".data).reverse ++ (['\n'] ++ (t.dropWhile isWs).reverse) := by
        rw [hsplitFe]
        simp [List.reverse_append, List.append_assoc]
      rw [hre, dropWhile_append_distrib, hrevfeE, if_neg Bool.false_ne_true, hrevfe]
      simp [List.reverse_append, List.append_assoc]
    rw [ht2]
    show (if ("```".data).isSuffixOf ((t.dropWhile isWs ++ ['\n']) ++ "```".data) = true
        then trimChars
          (List.take (((t.dropWhile isWs ++ ['\n']) ++ "```".data).length - 3)
            ((t.dropWhile isWs ++ ['\n']) ++ "```".data))
        else (t.dropWhile isWs ++ ['\n']) ++ "```".data) = trimChars t
    rw [isSuffixOf_append_self (t.dropWhile isWs ++ ['\n']) ("```".data), if_pos rfl]
    have hlen : ((t.dropWhile isWs ++ ['\n']) ++ "```".data).length - 3 =
        (t.dropWhile isWs ++ ['\n']).length := by
      simp
    rw [hlen, List.take_left]
    -- trimming the kept part drops the closing newline and the leading
    -- whitespace already removed from t
    have hldw : (t.dropWhile isWs ++ ['\n']).dropWhile isWs =
        t.dropWhile isWs ++ ['\n'] := by
      rw [dropWhile_append_distrib, dropWhile_idem isWs t, hEfalse,
        if_neg Bool.false_ne_true]
    rw [trimChars, hldw, List.reverse_append,
      show (['\n'] : List Char).reverse = ['\n'] from rfl,
      show ((['\n'] : List Char) ++ (t.dropWhile isWs).reverse) =
        '\n' :: (t.dropWhile isWs).reverse from rfl,
      List.dropWhile_cons, show isWs '\n' = true from rfl, if_pos rfl, trimChars]

/-- C5: stripping the markdown fence commutes with parsing — for any response
text `t` whose trimmed form does not itself begin with a three-backtick json
marker (every syntactically valid JSON text qualifies, since no JSON value
begins with a backtick), the normalizer extracts the same text, and hence
`JSON.parse` yields the same parsed value, from `t` wrapped in a leading
three-backtick json fence and trailing fence as from `t` unwrapped. -/
theorem c5_fence_strip (t : List Char)
    (h : ("```json".data).isPrefixOf (trimChars t) = false) :
    extractJson (wrapJsonFence t) = extractJson t ∧
    jsonParse (extractJson (wrapJsonFence t)) = jsonParse (extractJson t) := by
  have h1 : extractJson (wrapJsonFence t) = trimChars t := extractJson_wrap t
  have h2 : extractJson t = trimChars t := by
    rw [extractJson]
    simp [h]
  exact ⟨h1.trans h2.symm, by rw [h1, h2]⟩

/-- C5 (witness): the theorem applied to the concrete JSON text
`{"k": [1, 2]}`. -/
theorem c5_fence_strip_witness :
    ("```json".data).isPrefixOf (trimChars ("\x7b\"k\": [1, 2]\x7d".data)) = false ∧
    (extractJson (wrapJsonFence ("\x7b\"k\": [1, 2]\x7d".data)) =
        extractJson ("\x7b\"k\": [1, 2]\x7d".data) ∧
      jsonParse (extractJson (wrapJsonFence ("\x7b\"k\": [1, 2]\x7d".data))) =
        jsonParse (extractJson ("\x7b\"k\": [1, 2]\x7d".data))) :=
  ⟨rfl, c5_fence_strip ("\x7b\"k\": [1, 2]\x7d".data) rfl⟩

/-! The video generation call: request building, the status poller and the
download of the finished clip (`generateVideo`,
`src/services/geminiService.ts:158` and `src/unnamed/part_007:275`). -/

/-- The state of a video operation as the poller sees it: the `done` flag and
the `response?.generatedVideos?.[0]?.video?.uri` optional chain flattened to
an optional download link. -/
structure VideoOperation where
  done : Bool
  uri : Option String
deriving DecidableEq

/-- The request payload `ai.models.generateVideos` is called with. -/
structure VideoRequest where
  model : String
  prompt : String
  imageBytes : String
  mimeType : String
  numberOfVideos : Nat
  resolution : String
  aspectRatio : String
deriving DecidableEq

/-- The request construction inside `generateVideo`: fixed model, one video at
720p, and `aspectRatio === '1:1' ? '16:9' : aspectRatio` — Veo does not
support 1:1, so it is coerced to 16:9 while the other ratios pass through. -/
def buildVideoRequest (base64Image : String) (mimeType : String) (prompt : String)
    ( aspectRatio : String) : VideoRequest :=
  { model := "veo-3.1-fast-generate-preview"
    prompt := prompt
    imageBytes := base64Image
    mimeType := mimeType
    numberOfVideos := 1
    resolution := "720p"
    aspectRatio := if aspectRatio = "1:1" then "16:9" else aspectRatio }

/-- An observable step of the polling loop: a timed wait (milliseconds) or a
`getVideosOperation` status check. -/
inductive PollEvent where
  | wait (ms : Nat)
  | check
deriving DecidableEq

/-- The `while (!operation.done)` loop of `generateVideo`: while the current
operation is not done, wait 10000 ms, then re-fetch the operation status (the
k-th status check returns `backend k`).  Fuel bounds the unfolding — the
source loop has no bound of its own and `none` stands for an unfinished run.
Returns the terminal operation, the number of checks issued, and the event
trace. -/
def pollOperation (backend : Nat → VideoOperation) :
    Nat → VideoOperation → Nat → List PollEvent →
      Option (VideoOperation × Nat × List PollEvent)
  | 0, _, _, _ => none
  | Nat.succ fuel, op, k, trace =>
    if op.done then some (op, k, trace)
    else pollOperation backend fuel (backend k) (k + 1)
      (trace ++ [PollEvent.wait 10000, PollEvent.check])

/-- The failure kinds of the video call (spec taxonomy §7). -/
inductive VideoError where
  | generationFailed
  | downloadFailed
deriving DecidableEq

/-- The exact message each video failure is thrown with in the source. -/
def videoErrorMessage : VideoError → String
  | .generationFailed => "Video generation failed or returned no URI."
  | .downloadFailed => "Failed to fetch generated video."

/-- A `fetch` response as `generateVideo` consumes it: the `ok` flag and the
body blob. -/
structure FetchResponse where
  ok : Bool
  blob : String
deriving DecidableEq

/-- `generateVideo` from the submitted request on: submit, poll to completion,
then read the download link; no link is the terminal generation failure (and
nothing further runs), a link is fetched once with the key appended and a
non-ok response is the terminal download failure.  The result also carries
the number of status checks, the poll trace and the number of fetch attempts;
`none` stands for a poll loop that outruns the fuel. -/
def generateVideo (base64Image mimeType prompt aspectRatio apiKey : String)
    (submit : VideoRequest → VideoOperation) (backend : Nat → VideoOperation)
    (fetch : String → FetchResponse) (fuel : Nat) :
    Option (Except VideoError String × Nat × List PollEvent × Nat) :=
  let op0 := submit (buildVideoRequest base64Image mimeType prompt aspectRatio)
  match pollOperation backend fuel op0 0 [] with
  | none => none
  | some (op, checks, trace) =>
    match op.uri with
    | none => some (.error .generationFailed, checks, trace, 0)
    | some downloadLink =>
      let videoResponse := fetch (downloadLink ++ "&key=" ++ apiKey)
      if videoResponse.ok then some (.ok ("blob:" ++ videoResponse.blob), checks, trace, 1)
      else some (.error .downloadFailed, checks, trace, 1)

theorem pollOperation_run (backend : Nat → VideoOperation) :
    ∀ (N fuel k : Nat) (op : VideoOperation) (trace : List PollEvent),
    op.done = false →
    (∀ i, i < N → (backend (k + i)).done = false) →
    (backend (k + N)).done = true →
    N + 2 ≤ fuel →
    pollOperation backend fuel op k trace =
      some (backend (k + N), k + N + 1,
        trace ++ (List.replicate (N + 1) [PollEvent.wait 10000, PollEvent.check]).flatten) := by
  intro N
  induction N with
  | zero =>
    intro fuel k op trace h0 _ hN hfuel
    simp only [Nat.add_zero] at hN ⊢
    match fuel, hfuel with
    | Nat.succ (Nat.succ f), _ =>
      rw [pollOperation, h0, if_neg Bool.false_ne_true,
        pollOperation, hN, if_pos rfl]
      simp
  | succ n ih =>
    intro fuel k op trace h0 hlt hN hfuel
    match fuel, hfuel with
    | Nat.succ f, hfuel =>
      rw [pollOperation, h0, if_neg Bool.false_ne_true]
      have hstep := ih f (k + 1) (backend k)
        (trace ++ [PollEvent.wait 10000, PollEvent.check])
        (hlt 0 (Nat.succ_pos n))
        (fun i hi => by
          rw [show k + 1 + i = k + (i + 1) from by omega]
          exact hlt (i + 1) (Nat.succ_lt_succ hi))
        (by rwa [show k + 1 + n = k + (n + 1) from by omega])
        (by omega)
      rw [hstep]
      rw [show k + 1 + n = k + (n + 1) from by omega]
      rw [show (List.replicate (n + 1 + 1) [PollEvent.wait 10000, PollEvent.check]) =
        [PollEvent.wait 10000, PollEvent.check] ::
          List.replicate (n + 1) [PollEvent.wait 10000, PollEvent.check] from rfl]
      simp [List.append_assoc]

/-- C4: in a run where the submit response is not yet done and the status
backend reports `done=false` for the first N checks and `done=true` at the
next, the poller issues exactly N+1 status checks, each preceded by one fixed
10-second (10000 ms) wait, and returns the terminal result — the operation the
(N+1)-th check reported — only then. -/
theorem c4_poll_protocol (N : Nat) (backend : Nat → VideoOperation)
    (op0 : VideoOperation) (fuel : Nat)
    (h0 : op0.done = false)
    (hbefore : ∀ k, k < N → (backend k).done = false)
    (hdone : (backend N).done = true)
    (hfuel : N + 2 ≤ fuel) :
    pollOperation backend fuel op0 0 [] =
      some (backend N, N + 1,
        (List.replicate (N + 1) [PollEvent.wait 10000, PollEvent.check]).flatten) := by
  have hrun := pollOperation_run backend N fuel 0 op0 []
    h0 (by simpa using hbefore) (by simpa using hdone) hfuel
  simpa using hrun

/-- C4 (witness): a concrete run with N = 1 — the submit response is pending,
the first check still reports pending, the second reports done: two checks,
each preceded by a 10-second wait. -/
theorem c4_poll_protocol_witness :
    (VideoOperation.mk false none).done = false ∧
    (∀ k, k < 1 →
      ((fun k => if k = 0 then VideoOperation.mk false none
        else VideoOperation.mk true (some "u")) k).done = false) ∧
    ((fun k => if k = 0 then VideoOperation.mk false none
      else VideoOperation.mk true (some "u")) 1).done = true ∧
    pollOperation
        (fun k => if k = 0 then VideoOperation.mk false none
          else VideoOperation.mk true (some "u"))
        3 (VideoOperation.mk false none) 0 [] =
      some (VideoOperation.mk true (some "u"), 2,
        [PollEvent.wait 10000, PollEvent.check, PollEvent.wait 10000, PollEvent.check]) := by
  refine ⟨rfl, by decide, rfl, ?_⟩
  have h := c4_poll_protocol 1
    (fun k => if k = 0 then VideoOperation.mk false none
      else VideoOperation.mk true (some "u"))
    (VideoOperation.mk false none) 3 rfl (by decide) rfl (by decide)
  rw [h]
  rfl

/-- C9: the request submitted to the video backend carries aspect ratio 16:9
when the caller asked for 1:1, and the caller's value unchanged for 16:9 and
9:16. -/
theorem c9_aspect_coercion (base64Image mimeType prompt : String) :
    VideoRequest.aspectRatio (buildVideoRequest base64Image mimeType prompt "1:1") =
        "16:9" ∧
    VideoRequest.aspectRatio (buildVideoRequest base64Image mimeType prompt "16:9") =
        "16:9" ∧
    VideoRequest.aspectRatio (buildVideoRequest base64Image mimeType prompt "9:16") =
        "9:16" :=
  ⟨rfl, rfl, rfl⟩

/-- C6: once the poll loop has delivered a terminal operation, a missing
result URI makes `generateVideo` fail with the terminal generation failure,
issuing no further check and no fetch; a present URI whose binary fetch is
not ok makes it fail with exactly one download failure — one fetch attempt,
the same poll trace, and no result. -/
theorem c6_terminal_failures (base64Image mimeType prompt aspectRatio apiKey : String)
    (submit : VideoRequest → VideoOperation) (backend : Nat → VideoOperation)
    (fetch : String → FetchResponse) (fuel : Nat)
    (op : VideoOperation) (checks : Nat) (trace : List PollEvent)
    (hpoll : pollOperation backend fuel
        (submit (buildVideoRequest base64Image mimeType prompt aspectRatio)) 0 [] =
      some (op, checks, trace)) :
    (op.uri = none →
      generateVideo base64Image mimeType prompt aspectRatio apiKey
          submit backend fetch fuel =
        some (.error .generationFailed, checks, trace, 0)) ∧
    (∀ u, op.uri = some u → (fetch (u ++ "&key=" ++ apiKey)).ok = false →
      generateVideo base64Image mimeType prompt aspectRatio apiKey
          submit backend fetch fuel =
        some (.error .downloadFailed, checks, trace, 1)) := by
  constructor
  · intro hnone
    simp only [generateVideo, hpoll, hnone]
  · intro u hu hfetch
    simp only [generateVideo, hpoll, hu, hfetch]
    rw [if_neg Bool.false_ne_true]

/-- C6 (witness): two concrete completed runs — one whose terminal operation
carries no URI (generation failure, zero fetches), one whose URI is present
but whose fetch is not ok (exactly one download failure, no result). -/
theorem c6_terminal_failures_witness :
    generateVideo "img" "image/png" "p" "16:9" "KEY"
        (fun _ => VideoOperation.mk false none)
        (fun _ => VideoOperation.mk true none)
        (fun _ => FetchResponse.mk false "")
        4 =
      some (.error .generationFailed, 1,
        [PollEvent.wait 10000, PollEvent.check], 0) ∧
    generateVideo "img" "image/png" "p" "16:9" "KEY"
        (fun _ => VideoOperation.mk false none)
        (fun _ => VideoOperation.mk true (some "u"))
        (fun _ => FetchResponse.mk false "")
        4 =
      some (.error .downloadFailed, 1,
        [PollEvent.wait 10000, PollEvent.check], 1) := by
  constructor
  · exact (c6_terminal_failures "img" "image/png" "p" "16:9" "KEY"
      (fun _ => VideoOperation.mk false none)
      (fun _ => VideoOperation.mk true none)
      (fun _ => FetchResponse.mk false "") 4
      (VideoOperation.mk true none) 1 [PollEvent.wait 10000, PollEvent.check]
      rfl).1 rfl
  · exact (c6_terminal_failures "img" "image/png" "p" "16:9" "KEY"
      (fun _ => VideoOperation.mk false none)
      (fun _ => VideoOperation.mk true (some "u"))
      (fun _ => FetchResponse.mk false "") 4
      (VideoOperation.mk true (some "u")) 1 [PollEvent.wait 10000, PollEvent.check]
      rfl).2 "u" rfl rfl

/-! Feature-surface request-lifecycle state.  Each submit handler is embedded
as a function from the surface's state and the gateway call's outcome to the
next state; the sequential `setX` calls of the handler become sequential
record updates. -/

/-- The state of the `ImageGenerator` surface (`src/unnamed/part_005`). -/
structure ImageGeneratorState where
  prompt : String
  aspectRatio : String
  generatedImageUrl : Option String
  loading : Bool
  error : Option String
deriving DecidableEq

/-- `ImageGenerator.handleSubmit` (`src/unnamed/part_005:113`): reject an
all-whitespace prompt with a fixed message; otherwise set loading, clear the
error and the previous result, run the call, store the data URL on success or
the failure message on error, and clear loading. -/
def imageGeneratorSubmit (s : ImageGeneratorState) (outcome : Except String String) :
    ImageGeneratorState :=
  if trimChars s.prompt.data = [] then
    { s with error := some "Please enter a prompt to generate an image." }
  else
    let s1 := { s with loading := true, error := none, generatedImageUrl := none }
    let s2 :=
      match outcome with
      | .ok generatedBase64 =>
        { s1 with generatedImageUrl := some ("data:image/jpeg;base64," ++ generatedBase64) }
      | .error message => { s1 with error := some message }
    { s2 with loading := false }

/-- The state of the `PostWriter` surface (`src/unnamed/part_004`). -/
structure PostWriterState where
  topic : String
  tone : String
  platform : String
  generatedPost : String
  loading : Bool
  error : Option String
  copySuccess : String
deriving DecidableEq

/-- `PostWriter.handleSubmit` (`src/unnamed/part_004:19`): reject an
all-whitespace topic; otherwise set loading, clear error, previous post and
copy notice, run the call, store the post on success or the failure message
on error, and clear loading. -/
def postWriterSubmit (s : PostWriterState) (outcome : Except String String) :
    PostWriterState :=
  if trimChars s.topic.data = [] then
    { s with error := some "Please enter a topic or some keywords." }
  else
    let s1 := { s with loading := true, error := none, generatedPost := "",
                       copySuccess := "" }
    let s2 :=
      match outcome with
      | .ok post => { s1 with generatedPost := post }
      | .error message => { s1 with error := some message }
    { s2 with loading := false }

/-- A concrete `ImageGenerator` state holding a previously displayed
successful result. -/
def c3PriorState : ImageGeneratorState :=
  { prompt := "a cat", aspectRatio := "1:1",
    generatedImageUrl := some "data:image/jpeg;base64,OLD",
    loading := false, error := none }

/-- C3 (counterexample): the claim says a failing call leaves the prior
successful result untouched; on the code, `handleSubmit` clears the result at
its start (`setGeneratedImageUrl(null)` before the call), so after the
failure the previously displayed result is gone, not untouched — only the
error message is shown. -/
theorem c3_counterexample :
    (imageGeneratorSubmit c3PriorState (.error "boom")).error = some "boom" ∧
    (imageGeneratorSubmit c3PriorState (.error "boom")).generatedImageUrl = none ∧
    c3PriorState.generatedImageUrl = some "data:image/jpeg;base64,OLD" ∧
    (imageGeneratorSubmit c3PriorState (.error "boom")).generatedImageUrl ≠
      c3PriorState.generatedImageUrl := by
  refine ⟨rfl, rfl, rfl, ?_⟩
  intro hcontra
  rw [show (imageGeneratorSubmit c3PriorState (.error "boom")).generatedImageUrl =
    none from rfl] at hcontra
  cases hcontra

/-- C3 (amended): when a non-empty submission fails, the surface displays the
error's human-readable message inline; the prior successful result, however,
is not left unchanged — the handler already cleared it when the attempt
began, so the failed surface shows no result (`none` for `ImageGenerator`,
the empty string for `PostWriter`) and is no longer loading. -/
theorem c3_error_display (s : ImageGeneratorState) (s2 : PostWriterState) (m : String)
    (h : trimChars s.prompt.data ≠ []) (h2 : trimChars s2.topic.data ≠ []) :
    ((imageGeneratorSubmit s (.error m)).error = some m ∧
     (imageGeneratorSubmit s (.error m)).generatedImageUrl = none ∧
     (imageGeneratorSubmit s (.error m)).loading = false) ∧
    ((postWriterSubmit s2 (.error m)).error = some m ∧
     (postWriterSubmit s2 (.error m)).generatedPost = "" ∧
     (postWriterSubmit s2 (.error m)).loading = false) := by
  constructor
  · rw [imageGeneratorSubmit, if_neg h]
    exact ⟨rfl, rfl, rfl⟩
  · rw [postWriterSubmit, if_neg h2]
    exact ⟨rfl, rfl, rfl⟩

/-- C3 (witness): the amended theorem at a concrete prior state (which held a
result) and the concrete failure message "quota exceeded". -/
theorem c3_error_display_witness :
    trimChars ("dog".data) ≠ [] ∧
    ((imageGeneratorSubmit
        (ImageGeneratorState.mk "dog" "16:9" (some "data:image/jpeg;base64,X") false none)
        (.error "quota exceeded")).error = some "quota exceeded" ∧
      (imageGeneratorSubmit
        (ImageGeneratorState.mk "dog" "16:9" (some "data:image/jpeg;base64,X") false none)
        (.error "quota exceeded")).generatedImageUrl = none ∧
      (imageGeneratorSubmit
        (ImageGeneratorState.mk "dog" "16:9" (some "data:image/jpeg;base64,X") false none)
        (.error "quota exceeded")).loading = false) ∧
    ((postWriterSubmit
        (PostWriterState.mk "sale" "Casual" "Facebook" "old post" false none "")
        (.error "quota exceeded")).error = some "quota exceeded" ∧
      (postWriterSubmit
        (PostWriterState.mk "sale" "Casual" "Facebook" "old post" false none "")
        (.error "quota exceeded")).generatedPost = "" ∧
      (postWriterSubmit
        (PostWriterState.mk "sale" "Casual" "Facebook" "old post" false none "")
        (.error "quota exceeded")).loading = false) := by
  refine ⟨by decide, ?_⟩
  exact c3_error_display
    (ImageGeneratorState.mk "dog" "16:9" (some "data:image/jpeg;base64,X") false none)
    (PostWriterState.mk "sale" "Casual" "Facebook" "old post" false none "")
    "quota exceeded" (by decide) (by decide)

/-! The `VideoGenerator` surface and its error classification
(`src/components/VideoGenerator.tsx`). -/

/-- The failure text indicating an invalid or unrecognized API credential. -/
def invalidKeyIndicator : String := "Requested entity was not found"

/-- Model of JavaScript `String.prototype.includes`: the needle occurs as a
contiguous substring of the haystack. -/
def stringIncludes (haystack needle : String) : Bool :=
  haystack.data.tails.any fun t => needle.data.isPrefixOf t

/-- The state of the `VideoGenerator` surface. -/
structure VideoGeneratorState where
  apiKeySelected : Bool
  imageFile : Bool
  prompt : String
  aspectRatio : String
  generatedVideoUrl : Option String
  loading : Bool
  loadingMessage : String
  error : Option String
deriving DecidableEq

/-- The catch block of `VideoGenerator.handleSubmit`
(`src/components/VideoGenerator.tsx:115`): a failure message containing the
invalid-credential indicator sets the fixed invalid-key message and drops the
key selection (re-prompting the user); any other message is shown as is. -/
def videoGeneratorCatch (s : VideoGeneratorState) (errorMessage : String) :
    VideoGeneratorState :=
  if stringIncludes errorMessage invalidKeyIndicator then
    { s with error := some "Your API key is invalid. Please select a valid key.",
             apiKeySelected := false }
  else
    { s with error := some errorMessage }

/-- `VideoGenerator.handleSubmit` (`src/components/VideoGenerator.tsx:100`):
reject a missing image or empty prompt; otherwise set loading, clear error
and previous video, reset the loading message, run the call, store the blob
URL on success or classify the failure, and clear loading. -/
def videoGeneratorSubmit (s : VideoGeneratorState) (outcome : Except String String) :
    VideoGeneratorState :=
  if s.imageFile = false ∨ trimChars s.prompt.data = [] then
    { s with error := some "Please upload an image and provide a video prompt." }
  else
    let s1 := { s with loading := true, error := none, generatedVideoUrl := none,
                       loadingMessage := "Warming up the video engine..." }
    let s2 :=
      match outcome with
      | .ok videoUrl => { s1 with generatedVideoUrl := some videoUrl }
      | .error errorMessage => videoGeneratorCatch s1 errorMessage
    { s2 with loading := false }

/-- C7: for a valid submission whose gateway call fails, a failure message
containing the literal substring "Requested entity was not found" is
classified as the invalid-credential outcome — the fixed invalid-key message
is shown and the key selection is dropped, re-prompting the caller — while
every other failure message is shown as a generic failure, leaving the key
selection untouched. -/
theorem c7_error_classifier (s : VideoGeneratorState) (m : String)
    (hfile : s.imageFile = true) (hprompt : trimChars s.prompt.data ≠ []) :
    (stringIncludes m invalidKeyIndicator = true →
      (videoGeneratorSubmit s (.error m)).error =
          some "Your API key is invalid. Please select a valid key." ∧
      (videoGeneratorSubmit s (.error m)).apiKeySelected = false) ∧
    (stringIncludes m invalidKeyIndicator = false →
      (videoGeneratorSubmit s (.error m)).error = some m ∧
      (videoGeneratorSubmit s (.error m)).apiKeySelected = s.apiKeySelected) := by
  have hcond : ¬ (s.imageFile = false ∨ trimChars s.prompt.data = []) := by
    rintro (hc | hc)
    · rw [hfile] at hc
      cases hc
    · exact hprompt hc
  constructor
  · intro hinc
    simp [videoGeneratorSubmit, hcond, videoGeneratorCatch, hinc]
  · intro hninc
    simp [videoGeneratorSubmit, hcond, videoGeneratorCatch, hninc]

/-- C7 (witness): the classifier theorem at a concrete state, once with a
message containing the indicator and once with a plain failure message. -/
theorem c7_error_classifier_witness :
    ((videoGeneratorSubmit
        (VideoGeneratorState.mk true true "zoom out" "16:9" none false "" none)
        (.error "got status: 404 . Requested entity was not found.")).error =
          some "Your API key is invalid. Please select a valid key." ∧
      (videoGeneratorSubmit
        (VideoGeneratorState.mk true true "zoom out" "16:9" none false "" none)
        (.error "got status: 404 . Requested entity was not found.")).apiKeySelected =
          false) ∧
    ((videoGeneratorSubmit
        (VideoGeneratorState.mk true true "zoom out" "16:9" none false "" none)
        (.error "network down")).error = some "network down" ∧
      (videoGeneratorSubmit
        (VideoGeneratorState.mk true true "zoom out" "16:9" none false "" none)
        (.error "network down")).apiKeySelected =
          (VideoGeneratorState.mk true true "zoom out" "16:9" none false "" none).apiKeySelected) := by
  constructor
  · exact (c7_error_classifier
      (VideoGeneratorState.mk true true "zoom out" "16:9" none false "" none)
      "got status: 404 . Requested entity was not found." rfl (by decide)).1 (by decide)
  · exact (c7_error_classifier
      (VideoGeneratorState.mk true true "zoom out" "16:9" none false "" none)
      "network down" rfl (by decide)).2 (by decide)

/-! The content-calendar task list of the `App` component
(`src/unnamed/part_007:364`). -/

/-- The post-idea platforms (`PostIdea.platform` in `src/unnamed/part_008`). -/
inductive Platform5 where
  | instagram
  | tiktok
  | x
  | facebook
  | linkedin
deriving DecidableEq

/-- `PostIdea` from `src/unnamed/part_008`. -/
structure PostIdea where
  platform : Platform5
  prompt : String
  visualIdea : String
deriving DecidableEq

/-- `Task` from `src/unnamed/part_008`. -/
structure Task where
  id : String
  postIdea : PostIdea
  completed : Bool
deriving DecidableEq

/-- `App.addTask` (`src/unnamed/part_007:368`): if some existing task already
has the submitted idea's prompt and platform, return the list unchanged;
otherwise append one new task, not completed, with a freshly generated id
(the `Date.now()`-and-random id is an input here). -/
def addTask (prevTasks : List Task) (newId : String) (postIdea : PostIdea) :
    List Task :=
  if prevTasks.any (fun task =>
      task.postIdea.prompt = postIdea.prompt ∧
      task.postIdea.platform = postIdea.platform) then
    prevTasks
  else
    prevTasks ++ [{ id := newId, postIdea := postIdea, completed := false }]

/-- `App.toggleTask` (`src/unnamed/part_007:386`): flip the completed flag of
every task whose id matches, keep every other task as it is. -/
def toggleTask (tasks : List Task) (taskId : String) : List Task :=
  tasks.map fun task =>
    if task.id = taskId then { task with completed := !task.completed } else task

/-- The task lists reachable from the initial empty list through `addTask`
and `toggleTask`, the only two updates `App` applies to `tasks`. -/
inductive ReachableTasks : List Task → Prop
  | start : ReachableTasks []
  | add (ts : List Task) (newId : String) (p : PostIdea) :
      ReachableTasks ts → ReachableTasks (addTask ts newId p)
  | toggle (ts : List Task) (taskId : String) :
      ReachableTasks ts → ReachableTasks (toggleTask ts taskId)

/-- Two tasks are duplicates when they share prompt and platform. -/
def sameIdeaKey (a b : Task) : Prop :=
  a.postIdea.prompt = b.postIdea.prompt ∧ a.postIdea.platform = b.postIdea.platform

theorem toggleTask_preserves_postIdea (ts : List Task) (taskId : String) :
    (toggleTask ts taskId).map Task.postIdea = ts.map Task.postIdea := by
  induction ts with
  | nil => rfl
  | cons t ts ih =>
    simp only [toggleTask, List.map_cons] at ih ⊢
    by_cases ht : t.id = taskId
    · rw [if_pos ht]
      simpa using ih
    · rw [if_neg ht]
      simpa using ih

theorem reachable_no_duplicate_idea (ts : List Task) (h : ReachableTasks ts) :
    ts.Pairwise (fun a b => ¬ sameIdeaKey a b) := by
  induction h with
  | start => exact List.Pairwise.nil
  | add ts newId p _ ih =>
    rw [addTask]
    by_cases hdup : ts.any (fun task =>
        task.postIdea.prompt = p.prompt ∧ task.postIdea.platform = p.platform)
    · rw [if_pos hdup]
      exact ih
    · rw [if_neg hdup]
      rw [List.pairwise_append]
      refine ⟨ih, List.pairwise_singleton _ _, ?_⟩
      intro a ha b hb
      rw [List.mem_singleton] at hb
      subst hb
      rw [List.any_eq_true] at hdup
      push_neg at hdup
      intro hkey
      exact absurd hkey (by simpa [sameIdeaKey] using hdup a ha)
  | toggle ts taskId _ ih =>
    have hmap : toggleTask ts taskId = ts.map (fun task =>
        if task.id = taskId then { task with completed := !task.completed }
        else task) := rfl
    rw [hmap, List.pairwise_map]
    refine ih.imp ?_
    intro a b hab
    have hpa : (if a.id = taskId then { a with completed := !a.completed }
        else a).postIdea = a.postIdea := by
      by_cases h1 : a.id = taskId <;> simp [h1]
    have hpb : (if b.id = taskId then { b with completed := !b.completed }
        else b).postIdea = b.postIdea := by
      by_cases h1 : b.id = taskId <;> simp [h1]
    simpa [sameIdeaKey, hpa, hpb] using hab

/-- C10: (a) every task list reachable from the empty list through `addTask`
and `toggleTask` holds no two tasks sharing prompt and platform; (b) `addTask`
returns the list unchanged when the submitted idea duplicates an existing
task's prompt and platform, and otherwise appends exactly one new task with
`completed := false`, leaving the existing tasks unchanged; (c) `toggleTask`
preserves length, order, ids and post ideas, and flips exactly the completed
flag of the tasks whose id matches. -/
theorem c10_task_list (ts : List Task) (newId taskId : String) (p : PostIdea)
    (hreach : ReachableTasks ts) :
    ts.Pairwise (fun a b => ¬ sameIdeaKey a b) ∧
    (ts.any (fun task => task.postIdea.prompt = p.prompt ∧
        task.postIdea.platform = p.platform) = true →
      addTask ts newId p = ts) ∧
    (ts.any (fun task => task.postIdea.prompt = p.prompt ∧
        task.postIdea.platform = p.platform) = false →
      addTask ts newId p = ts ++ [Task.mk newId p false]) ∧
    (toggleTask ts taskId).length = ts.length ∧
    (∀ k : Nat, ((toggleTask ts taskId)[k]?.map Task.id) = (ts[k]?.map Task.id) ∧
      ((toggleTask ts taskId)[k]?.map Task.postIdea) = (ts[k]?.map Task.postIdea) ∧
      ((toggleTask ts taskId)[k]?.map Task.completed) =
        (ts[k]?.map fun task =>
          if task.id = taskId then !task.completed else task.completed)) := by
  refine ⟨reachable_no_duplicate_idea ts hreach, ?_, ?_, ?_, ?_⟩
  · intro hdup
    rw [addTask, if_pos hdup]
  · intro hdup
    rw [addTask, if_neg (by rw [hdup]; exact Bool.false_ne_true)]
  · simp [toggleTask]
  · intro k
    refine ⟨?_, ?_, ?_⟩
    · rw [toggleTask, List.getElem?_map]
      cases ts[k]? with
      | none => rfl
      | some t =>
        by_cases ht : t.id = taskId <;> simp [ht]
    · rw [toggleTask, List.getElem?_map]
      cases ts[k]? with
      | none => rfl
      | some t =>
        by_cases ht : t.id = taskId <;> simp [ht]
    · rw [toggleTask, List.getElem?_map]
      cases ts[k]? with
      | none => rfl
      | some t =>
        by_cases ht : t.id = taskId <;> simp [ht]

/-- C10 (witness): the theorem applied to the concrete reachable list built by
one `addTask` from the empty list — the duplicate submission leaves it
unchanged, a fresh submission appends one incomplete task, and toggling by id
flips exactly the matching task's flag. -/
theorem c10_task_list_witness :
    (addTask [] "t1" (PostIdea.mk Platform5.instagram "hello" "photo")).Pairwise
        (fun a b => ¬ sameIdeaKey a b) ∧
    ((addTask [] "t1" (PostIdea.mk Platform5.instagram "hello" "photo")).any
        (fun task => task.postIdea.prompt = "hello" ∧
          task.postIdea.platform = Platform5.instagram) = true →
      addTask (addTask [] "t1" (PostIdea.mk Platform5.instagram "hello" "photo"))
          "t2" (PostIdea.mk Platform5.instagram "hello" "photo") =
        addTask [] "t1" (PostIdea.mk Platform5.instagram "hello" "photo")) ∧
    ((addTask [] "t1" (PostIdea.mk Platform5.instagram "hello" "photo")).any
        (fun task => task.postIdea.prompt = "hello" ∧
          task.postIdea.platform = Platform5.instagram) = false →
      addTask (addTask [] "t1" (PostIdea.mk Platform5.instagram "hello" "photo"))
          "t2" (PostIdea.mk Platform5.instagram "hello" "photo") =
        addTask [] "t1" (PostIdea.mk Platform5.instagram "hello" "photo") ++
          [Task.mk "t2" (PostIdea.mk Platform5.instagram "hello" "photo") false]) ∧
    (toggleTask (addTask [] "t1" (PostIdea.mk Platform5.instagram "hello" "photo"))
        "t1").length =
      (addTask [] "t1" (PostIdea.mk Platform5.instagram "hello" "photo")).length ∧
    (∀ k : Nat,
      ((toggleTask (addTask [] "t1" (PostIdea.mk Platform5.instagram "hello" "photo"))
          "t1")[k]?.map Task.id) =
        ((addTask [] "t1" (PostIdea.mk Platform5.instagram "hello" "photo"))[k]?.map
          Task.id) ∧
      ((toggleTask (addTask [] "t1" (PostIdea.mk Platform5.instagram "hello" "photo"))
          "t1")[k]?.map Task.postIdea) =
        ((addTask [] "t1" (PostIdea.mk Platform5.instagram "hello" "photo"))[k]?.map
          Task.postIdea) ∧
      ((toggleTask (addTask [] "t1" (PostIdea.mk Platform5.instagram "hello" "photo"))
          "t1")[k]?.map Task.completed) =
        ((addTask [] "t1" (PostIdea.mk Platform5.instagram "hello" "photo"))[k]?.map
          fun task => if task.id = "t1" then !task.completed else task.completed)) :=
  c10_task_list (addTask [] "t1" (PostIdea.mk Platform5.instagram "hello" "photo"))
    "t2" "t1" (PostIdea.mk Platform5.instagram "hello" "photo")
    (ReachableTasks.add [] "t1" (PostIdea.mk Platform5.instagram "hello" "photo")
      ReachableTasks.start)

end PSRSocial






